import Mathlib

/-!
# Verification of the template-transformation pipeline

Shallow embedding of the setup scripts of the pnpm-monorepo template:
`transform_project.sh`, `randomport`, `verify_setup.sh` (together with the
`install_deps.sh` stage that precedes it in `setup_project.sh`), and
`machine_setup.sh`.  File contents are modelled as `List Char`; `sed`'s
global literal substitution `s/pat/repl/g` is modelled by `replaceAll`,
and the line-oriented `s/KEY=.*/KEY=value/` rewrites of `.env.local` by
`sedLineKV` over a list of lines.
-/

namespace PnpmTemplate

/-- Predicate startsWith: the pattern `p` is an initial segment of `s`. -/
def startsWith : List Char → List Char → Bool
  | [], _ => true
  | _ :: _, [] => false
  | p :: ps, c :: cs => p == c && startsWith ps cs

/-- Predicate occurs: the pattern `p` occurs as a contiguous substring of `s`. -/
def occurs (p : List Char) : List Char → Bool
  | [] => startsWith p []
  | c :: cs => startsWith p (c :: cs) || occurs p cs

/-- Fuel-driven worker for `replaceAll`.  At each position, if the (nonempty)
pattern matches, it is consumed and the replacement emitted; otherwise one
character is copied.  Fuel `s.length` suffices since every step consumes at
least one character of the remaining input. -/
def replAux (p r : List Char) : Nat → List Char → List Char
  | 0, s => s
  | _ + 1, [] => []
  | fuel + 1, c :: cs =>
    if p ≠ [] ∧ startsWith p (c :: cs) = true then
      r ++ replAux p r fuel ((c :: cs).drop p.length)
    else
      c :: replAux p r fuel cs

/-- Model of `sed "s/p/r/g"` on a text without newlines in the pattern: replace every
(leftmost, non-overlapping) occurrence of the literal `p` by `r`. -/
def replaceAll (p r s : List Char) : List Char :=
  replAux p r s.length s

/-- Model of `etc/bin/randomport`: `PORT=$((1024 + RANDOM % 8976))`.  The shell
variable `RANDOM` is a 15-bit value, modelled by reducing an arbitrary
natural seed modulo `2^15 = 32768`. -/
def randomport (r : Nat) : Nat :=
  1024 + (r % 32768) % 8976

/-- The decimal digit character for `m % 10`. -/
def digitChar : Nat → Char
  | 0 => '0' | 1 => '1' | 2 => '2' | 3 => '3' | 4 => '4'
  | 5 => '5' | 6 => '6' | 7 => '7' | 8 => '8' | _ => '9'

/-- Fuel-driven decimal rendering worker. -/
def natDigitsAux : Nat → Nat → List Char → List Char
  | 0, _, acc => acc
  | fuel + 1, n, acc =>
    if n < 10 then digitChar n :: acc
    else natDigitsAux fuel (n / 10) (digitChar (n % 10) :: acc)

/-- Decimal rendering of a natural number, as the shell's `$VAR` expansion
prints a port value. -/
def natDigits (n : Nat) : List Char :=
  natDigitsAux (n + 1) n []

/-- Index of the first occurrence of `p` in `s`, if any. -/
def firstOcc (p : List Char) : List Char → Option Nat
  | [] => if startsWith p [] = true then some 0 else none
  | c :: cs =>
    if startsWith p (c :: cs) = true then some 0
    else (firstOcc p cs).map (· + 1)

/-- The line-oriented `sed "s/KEY=.*/repl/"`: on each line, the first
occurrence of the literal `key` together with everything to the end of the
line is replaced by `repl`; a line without the key is unchanged. -/
def sedLineKV (key repl line : List Char) : List Char :=
  match firstOcc key line with
  | none => line
  | some i => line.take i ++ repl

/-- Key of the backend-port line of `.env.local`. -/
def keyB : List Char := "BACKEND_PORT=".toList

/-- Key of the frontend-port line of `.env.local`. -/
def keyF : List Char := "FRONTEND_PORT=".toList

/-- Key of the derived base-URL line of `.env.local`. -/
def keyV : List Char := "VITE_API_BASE_URL=".toList

/-- The derived base-URL value composed from the backend port. -/
def urlOf (bp : Nat) : List Char :=
  "http://localhost:".toList ++ natDigits bp

/-- First `sed` pass on `.env.local`: rewrite the backend-port line. -/
def envLine1 (bp : Nat) (l : List Char) : List Char :=
  sedLineKV keyB (keyB ++ natDigits bp) l

/-- Second `sed` pass on `.env.local`: rewrite the frontend-port line. -/
def envLine2 (fp : Nat) (l : List Char) : List Char :=
  sedLineKV keyF (keyF ++ natDigits fp) l

/-- Third `sed` pass on `.env.local`: rewrite the derived base-URL line. -/
def envLine3 (bp : Nat) (l : List Char) : List Char :=
  sedLineKV keyV (keyV ++ urlOf bp) l

/-- The three successive `sed -i` invocations of the port-assignment step,
each traversing every line of `.env.local`. -/
def portSubst (bp fp : Nat) (lines : List (List Char)) : List (List Char) :=
  ((lines.map (envLine1 bp)).map (envLine2 fp)).map (envLine3 bp)

/-! ## The working copy and the identity-substitution rules

`transform_project.sh` touches a fixed set of files.  The working copy is
modelled by one field per referenced path; the files located by
`find . -name package.json` and `find . -name "*.ts" -o -name "*.tsx"` are
modelled as lists of file contents (a file `find` lists always exists, so
those `sed` invocations cannot fail on a missing file).  Files addressed by
an explicit path may be absent (`none`), in which case `sed -i` fails and
`set -e` aborts the script. -/

structure FS where
  /-- Contents of the `package.json` files found in the tree. -/
  packageJsons : List (List Char)
  /-- Contents of the `*.ts` / `*.tsx` files found in the tree. -/
  tsFiles : List (List Char)
  /-- Content of `zap.yaml`, if present. -/
  zapYaml : Option (List Char)
  /-- Content of `my-project.code-workspace`, if present (the rename source). -/
  wsSrc : Option (List Char)
  /-- Content of `$SLUG.code-workspace`, if present (the rename destination). -/
  wsDest : Option (List Char)
  /-- Content of `apps/frontend/index.html`, if present. -/
  indexHtml : Option (List Char)
  /-- Content of `packages/core/src/index.ts`, if present. -/
  coreIndex : Option (List Char)
  /-- Content of `apps/frontend/src/App.test.tsx`, if present. -/
  appTest : Option (List Char)
  /-- Content of `apps/backend/Dockerfile`, if present. -/
  dockerfile : Option (List Char)
  /-- Lines of `.env.local`, if present. -/
  envLocal : Option (List (List Char))
  /-- Whether the optional `./etc/bin/emoji-favicon` script exists. -/
  faviconScript : Bool
  deriving DecidableEq

/-- The placeholder in package names, imports and the Dockerfile. -/
def patPkg : List Char := "@my-org/my-project".toList

/-- The placeholder replaced throughout `zap.yaml`. -/
def patProj : List Char := "my-project".toList

/-- The display-name placeholder in `index.html`, `core/src/index.ts` and
`App.test.tsx`. -/
def patDisp : List Char := "My project".toList

/-- The Identity Substitution rule set of `transform_project.sh`: the
package-name, import, `zap.yaml`, display-name and Dockerfile replacements,
each a global `sed` substitution applied to the corresponding files. -/
def applySubst (slug dispName : List Char) (fs : FS) : FS :=
  { fs with
    packageJsons := fs.packageJsons.map (replaceAll patPkg ('@' :: slug))
    tsFiles := fs.tsFiles.map (replaceAll patPkg ('@' :: slug))
    zapYaml := fs.zapYaml.map (replaceAll patProj slug)
    indexHtml := fs.indexHtml.map (replaceAll patDisp dispName)
    coreIndex := fs.coreIndex.map (replaceAll patDisp dispName)
    appTest := fs.appTest.map (replaceAll patDisp dispName)
    dockerfile := fs.dockerfile.map (replaceAll patPkg ('@' :: slug)) }

/-- The pattern does not occur in an optional file's content. -/
def optClean (p : List Char) : Option (List Char) → Bool
  | none => true
  | some c => !occurs p c

/-- No rule pattern remains in any target file of the substitution. -/
def substClean (fs : FS) : Bool :=
  fs.packageJsons.all (fun c => !occurs patPkg c) &&
  fs.tsFiles.all (fun c => !occurs patPkg c) &&
  optClean patProj fs.zapYaml &&
  optClean patDisp fs.indexHtml &&
  optClean patDisp fs.coreIndex &&
  optClean patDisp fs.appTest &&
  optClean patPkg fs.dockerfile

/-- Outcome class of one `transform_project.sh` run: `usageErr` is the
explicit `exit 1` after the usage message when the arity check fails (no
file has been touched); `sedErr` is the `set -e` abort, with nonzero exit
status, when a `sed -i` target file is missing; `success` is the final
`exit 0` after the completion message and the two port lines. -/
inductive TExit
  | usageErr
  | sedErr
  | success
  deriving DecidableEq

/-- Result of one `transform_project.sh` run: the outcome class, the state
of the working copy when the script exits, and, on success, the two ports
printed at the end (backend first). -/
structure TRes where
  result : TExit
  fs : FS
  ports : Option (Nat × Nat)
  deriving DecidableEq

/-- The favicon `sed` pattern piece before the data URI. -/
def faviconPfx : List Char := "<link rel=\"icon\" href=\"".toList

/-- Skip to the first double quote of the list, if any. -/
def dropNonQuote : List Char → List Char
  | [] => []
  | c :: cs => if c = '"' then c :: cs else dropNonQuote cs

/-- The favicon branding pass:
`sed "s|<link rel=\"icon\" href=\"[^\"]*\"|<link rel=\"icon\" href=\"$FAVICON_B64\"|"`
replaces, at the first position where the literal prefix matches and a
closing quote follows, the quoted href value by the data URI. -/
def faviconReplace (fav : List Char) : List Char → List Char
  | [] => []
  | c :: cs =>
    if startsWith faviconPfx (c :: cs) = true then
      match dropNonQuote ((c :: cs).drop faviconPfx.length) with
      | [] => c :: faviconReplace fav cs
      | q :: tail => faviconPfx ++ fav ++ (q :: tail)
    else
      c :: faviconReplace fav cs

/-- One run of `transform_project.sh`, transcribed line by line.

Inputs: the positional arguments, the working copy, the two successive
values drawn from the shell's `RANDOM` by the two `randomport` calls, and
the data URI printed by `./etc/bin/emoji-favicon` when it runs.  `set -e`
makes every failing `sed -i` (missing target file) abort the script with
the updates made so far kept on disk; the `mv` of the workspace file has
its failure suppressed by `2>/dev/null || true`, and the favicon script is
guarded by an explicit `[ -f ]` check with a warning. -/
def runTransform (args : List (List Char)) (fs0 : FS) (r1 r2 : Nat)
    (fav : List Char) : TRes :=
  match args with
  | [slug, dispName, _descr, emoji] =>
    let fs1 : FS :=
      { fs0 with
        packageJsons := fs0.packageJsons.map (replaceAll patPkg ('@' :: slug))
        tsFiles := fs0.tsFiles.map (replaceAll patPkg ('@' :: slug)) }
    match fs1.zapYaml with
    | none => ⟨.sedErr, fs1, none⟩
    | some zy =>
    let fs2 : FS := { fs1 with zapYaml := some (replaceAll patProj slug zy) }
    let fs3 : FS :=
      match fs2.wsSrc with
      | none => fs2
      | some c => { fs2 with wsSrc := none, wsDest := some c }
    match fs3.indexHtml with
    | none => ⟨.sedErr, fs3, none⟩
    | some ih =>
    let fs4 : FS := { fs3 with indexHtml := some (replaceAll patDisp dispName ih) }
    match fs4.coreIndex with
    | none => ⟨.sedErr, fs4, none⟩
    | some ci =>
    let fs5 : FS := { fs4 with coreIndex := some (replaceAll patDisp dispName ci) }
    match fs5.appTest with
    | none => ⟨.sedErr, fs5, none⟩
    | some ta =>
    let fs6 : FS := { fs5 with appTest := some (replaceAll patDisp dispName ta) }
    match fs6.dockerfile with
    | none => ⟨.sedErr, fs6, none⟩
    | some df =>
    let fs7 : FS := { fs6 with dockerfile := some (replaceAll patPkg ('@' :: slug) df) }
    let bp := randomport r1
    let fp := randomport r2
    match fs7.envLocal with
    | none => ⟨.sedErr, fs7, none⟩
    | some env =>
    let fs8 : FS := { fs7 with envLocal := some (portSubst bp fp env) }
    let fs9 : FS :=
      if emoji ≠ [] then
        if fs8.faviconScript = true then
          { fs8 with indexHtml := fs8.indexHtml.map (faviconReplace fav) }
        else fs8
      else fs8
    ⟨.success, fs9, some (bp, fp)⟩
  | _ => ⟨.usageErr, fs0, none⟩

/-- All files addressed by an explicit `sed -i` path exist, so no `sed`
invocation of the run can fail. -/
def sedTargetsPresent (fs : FS) : Bool :=
  fs.zapYaml.isSome && fs.indexHtml.isSome && fs.coreIndex.isSome &&
  fs.appTest.isSome && fs.dockerfile.isSome && fs.envLocal.isSome

/-! ## The verification pipeline

`setup_project.sh` runs `install_deps.sh` and then `verify_setup.sh`; both
use `set -e`, so the first failing stage aborts with a nonzero status.  The
outcome of each external stage command (`pnpm install`, `pnpm typecheck`,
`pnpm build`, `zap up`, `zap t smoke`) is an input of the model. -/

/-- The five stages of the verification pipeline, in pipeline order. -/
inductive Stage
  | DependenciesInstalled
  | TypeChecked
  | Built
  | ServicesUp
  | SmokeTested
  deriving DecidableEq

/-- Outcome of each external stage command of one run. -/
structure VerifyEnv where
  installOk : Bool
  typecheckOk : Bool
  buildOk : Bool
  zapUpOk : Bool
  smokeOk : Bool
  deriving DecidableEq

/-- Result of one run of the verification pipeline. -/
structure VRes where
  /-- Stages that completed, in the order they completed. -/
  completed : List Stage
  /-- Whether the pipeline exits with status 0 (reports Passed). -/
  exitZero : Bool
  /-- Whether the background services are still running when the pipeline
  exits. -/
  servicesUp : Bool
  /-- Whether `PROJECT_SETUP_GUIDE.md` exists when the pipeline exits. -/
  guide : Bool
  /-- Whether the diagnostic capture (`zap ps` plus the backend log tail)
  was printed. -/
  diagPrinted : Bool
  deriving DecidableEq

/-- All five stage commands succeed. -/
def allStagesOk (env : VerifyEnv) : Bool :=
  env.installOk && env.typecheckOk && env.buildOk && env.zapUpOk &&
    env.smokeOk

/-- One run of the verification pipeline — `install_deps.sh` followed by
`verify_setup.sh`, as sequenced by `setup_project.sh` — transcribed from
the scripts.  `guide0` says whether `PROJECT_SETUP_GUIDE.md` exists at the
start.  Under `set -e` a failing stage exits immediately; the smoke-test
failure branch prints the diagnostics, runs `zap stop` and exits 1; the
success path runs `zap stop` and then removes the setup guide behind an
`[ -f ]` guard. -/
def runVerification (env : VerifyEnv) (guide0 : Bool) : VRes :=
  if env.installOk = false then
    ⟨[], false, false, guide0, false⟩
  else if env.typecheckOk = false then
    ⟨[.DependenciesInstalled], false, false, guide0, false⟩
  else if env.buildOk = false then
    ⟨[.DependenciesInstalled, .TypeChecked], false, false, guide0, false⟩
  else if env.zapUpOk = false then
    ⟨[.DependenciesInstalled, .TypeChecked, .Built], false, false, guide0,
      false⟩
  else if env.smokeOk = false then
    ⟨[.DependenciesInstalled, .TypeChecked, .Built, .ServicesUp], false,
      false, guide0, true⟩
  else
    ⟨[.DependenciesInstalled, .TypeChecked, .Built, .ServicesUp,
      .SmokeTested], true, false, false, false⟩

/-- The full stage sequence of a passing run. -/
def fullStageOrder : List Stage :=
  [.DependenciesInstalled, .TypeChecked, .Built, .ServicesUp, .SmokeTested]

/-! ## The prerequisite check

`machine_setup.sh` probes `node`, `pnpm` and `zap` with `command -v`,
prints a per-tool line (found version or missing), prints the summary with
the list of missing tools, and exits 1 exactly when any tool is absent. -/

/-- The probed environment: for each required tool, its version string if
the tool is on the path. -/
structure ToolEnv where
  node : Option (List Char)
  pnpm : Option (List Char)
  zap : Option (List Char)

/-- Output of `machine_setup.sh`. -/
structure MachineReport where
  /-- One entry per tool, in script order: the tool's display name and its
  found version (`none` when the per-tool line says missing). -/
  entries : List (List Char × Option (List Char))
  /-- Display names of the tools listed as missing in the summary. -/
  missing : List (List Char)
  /-- The exit status. -/
  exit : Nat

/-- Display name used by the script for the runtime. -/
def nodeName : List Char := "Node.js".toList

/-- Display name used by the script for the package manager. -/
def pnpmName : List Char := "pnpm".toList

/-- Display name used by the script for the process-manager CLI. -/
def zapName : List Char := "Zapper".toList

/-- One run of `machine_setup.sh`, transcribed from the script: the three
probes set `node_ok` / `pnpm_ok` / `zapper_ok` and accumulate
`any_failures`; the summary lists each tool whose flag is false; the exit
status is 1 when `any_failures` is set and 0 otherwise. -/
def machineSetup (e : ToolEnv) : MachineReport :=
  let nodeOk := e.node.isSome
  let pnpmOk := e.pnpm.isSome
  let zapOk := e.zap.isSome
  let anyFailures := !nodeOk || !pnpmOk || !zapOk
  { entries := [(nodeName, e.node), (pnpmName, e.pnpm), (zapName, e.zap)]
    missing :=
      (if nodeOk then [] else [nodeName]) ++
      (if pnpmOk then [] else [pnpmName]) ++
      (if zapOk then [] else [zapName])
    exit := if anyFailures then 1 else 0 }

/-! ## Concrete fixtures

Small concrete instances used by witnesses and counterexamples: a slug and
display name, a template-like working copy, and variants of it. -/

/-- The example slug of the spec's end-to-end scenario. -/
def acmeSlug : List Char := "acme-app".toList

/-- The example display name of the spec's end-to-end scenario. -/
def acmeName : List Char := "Acme App".toList

/-- A perfectly kebab-case slug that itself contains the placeholder
`my-project` as a substring. -/
def badSlug : List Char := "my-project-app".toList

/-- The four positional arguments of the spec's end-to-end scenario (with
an empty emoji, so the favicon branch is skipped). -/
def argsAcme : List (List Char) :=
  [acmeSlug, acmeName, "demo".toList, []]

/-- A small template-like working copy with every `sed` target present. -/
def fsTemplate : FS :=
  { packageJsons := ["\"name\": \"@my-org/my-project\"".toList]
    tsFiles := ["import core from \"@my-org/my-project-core\";".toList]
    zapYaml := some "name: my-project".toList
    wsSrc := some "workspace".toList
    wsDest := none
    indexHtml := some "<title>My project</title>".toList
    coreIndex := some "export const appName = \"My project\";".toList
    appTest := some "renders My project".toList
    dockerfile := some "LABEL app=@my-org/my-project".toList
    envLocal := some ["BACKEND_PORT=3000".toList, "FRONTEND_PORT=5173".toList,
      "VITE_API_BASE_URL=http://localhost:3000".toList, "OTHER=1".toList]
    faviconScript := false }

/-- The template working copy with `zap.yaml` deleted. -/
def fsNoZap : FS := { fsTemplate with zapYaml := none }

/-- The template working copy with `.env.local` deleted. -/
def fsNoEnv : FS := { fsTemplate with envLocal := none }

/-- The template working copy after the rename was already applied: the
rename source is gone and the destination file exists. -/
def fsRenamed : FS :=
  { fsTemplate with wsSrc := none, wsDest := some "workspace".toList }

/-- A working copy holding only `zap.yaml` with its template content. -/
def fsZapOnly : FS :=
  { packageJsons := [], tsFiles := [], zapYaml := some "name: my-project".toList
    wsSrc := none, wsDest := none, indexHtml := none, coreIndex := none
    appTest := none, dockerfile := none, envLocal := none
    faviconScript := false }

/-- A verification run in which every stage command succeeds. -/
def envAllOk : VerifyEnv := ⟨true, true, true, true, true⟩

/-- A verification run in which only the smoke test fails. -/
def envSmokeFail : VerifyEnv := ⟨true, true, true, true, false⟩

/-- The backend-port line of the fixture `.env.local`. -/
def lineB : List Char := "BACKEND_PORT=3000".toList

/-- The frontend-port line of the fixture `.env.local`. -/
def lineF : List Char := "FRONTEND_PORT=5173".toList

/-- The base-URL line of the fixture `.env.local`. -/
def lineV : List Char := "VITE_API_BASE_URL=http://localhost:3000".toList

/-- An unrelated line of the fixture `.env.local`. -/
def lineOther : List Char := "OTHER=1".toList

/-- The lines of the fixture `.env.local`. -/
def lines0 : List (List Char) := [lineB, lineF, lineV, lineOther]

/-! ## Helper lemmas -/

/-- A text in which the pattern does not occur is left unchanged by the
replacement worker, whatever the fuel. -/
theorem replAux_of_not_occurs (p r : List Char) (fuel : Nat) (s : List Char)
    (h : occurs p s = false) : replAux p r fuel s = s := by
  induction fuel generalizing s with
  | zero => rfl
  | succ n ih =>
    cases s with
    | nil => rfl
    | cons c cs =>
      simp only [occurs, Bool.or_eq_false_iff] at h
      rw [replAux]
      rw [if_neg]
      · rw [ih cs h.2]
      · intro hcon
        rw [h.1] at hcon
        exact Bool.false_ne_true hcon.2

/-- A text in which the pattern does not occur is a fixed point of
`replaceAll`. -/
theorem replaceAll_of_not_occurs (p r s : List Char)
    (h : occurs p s = false) : replaceAll p r s = s :=
  replAux_of_not_occurs p r s.length s h

/-- C4: Every port produced by the random-port generator lies in the
documented range 1024–9999 inclusive, for every value of the underlying
pseudo-random source. -/
theorem randomport_in_bounds (r : Nat) :
    1024 ≤ randomport r ∧ randomport r ≤ 9999 := by
  unfold randomport
  have h : (r % 32768) % 8976 < 8976 := Nat.mod_lt _ (by decide)
  omega

theorem digitChar_isDigit (m : Nat) : (digitChar m).isDigit = true := by
  unfold digitChar
  split <;> decide

theorem natDigitsAux_mem (fuel n : Nat) (acc : List Char) (c : Char)
    (hc : c ∈ natDigitsAux fuel n acc) :
    c ∈ acc ∨ c.isDigit = true := by
  induction fuel generalizing n acc with
  | zero => exact Or.inl hc
  | succ f ih =>
    rw [natDigitsAux] at hc
    split at hc
    · rcases List.mem_cons.mp hc with h | h
      · exact Or.inr (h ▸ digitChar_isDigit n)
      · exact Or.inl h
    · rcases ih (n / 10) (digitChar (n % 10) :: acc) hc with h | h
      · rcases List.mem_cons.mp h with h1 | h1
        · exact Or.inr (h1 ▸ digitChar_isDigit (n % 10))
        · exact Or.inl h1
      · exact Or.inr h

/-- Every character printed for a port number is a decimal digit. -/
theorem natDigits_isDigit (n : Nat) (c : Char) (hc : c ∈ natDigits n) :
    c.isDigit = true := by
  rcases natDigitsAux_mem (n + 1) n [] c hc with h | h
  · cases h
  · exact h

/-- An occurrence of `p` inside `s` puts every character of `p` inside `s`:
auxiliary form for a match at the start. -/
theorem startsWith_mem (p s : List Char) (h : startsWith p s = true)
    (c : Char) (hc : c ∈ p) : c ∈ s := by
  induction p generalizing s with
  | nil => cases hc
  | cons a as ih =>
    cases s with
    | nil => simp [startsWith] at h
    | cons b bs =>
      simp only [startsWith, Bool.and_eq_true, beq_iff_eq] at h
      rcases List.mem_cons.mp hc with h1 | h1
      · exact List.mem_cons.mpr (Or.inl (h1.trans h.1))
      · exact List.mem_cons.mpr (Or.inr (ih bs h.2 h1))

/-- An occurrence of `p` inside `s` puts every character of `p` inside `s`. -/
theorem occurs_mem (p s : List Char) (h : occurs p s = true)
    (c : Char) (hc : c ∈ p) : c ∈ s := by
  induction s with
  | nil =>
    rw [occurs] at h
    cases p with
    | nil => cases hc
    | cons a as => simp [startsWith] at h
  | cons b bs ih =>
    rw [occurs, Bool.or_eq_true] at h
    rcases h with h | h
    · exact startsWith_mem p (b :: bs) h c hc
    · exact List.mem_cons.mpr (Or.inr (ih h))

theorem firstOcc_of_not_occurs (p s : List Char) (h : occurs p s = false) :
    firstOcc p s = none := by
  induction s with
  | nil =>
    rw [occurs] at h
    rw [firstOcc, if_neg]
    rw [h]
    exact Bool.false_ne_true
  | cons c cs ih =>
    rw [occurs, Bool.or_eq_false_iff] at h
    rw [firstOcc, if_neg, ih h.2]
    · rfl
    · rw [h.1]
      exact Bool.false_ne_true

theorem sedLineKV_of_not_occurs (key repl line : List Char)
    (h : occurs key line = false) : sedLineKV key repl line = line := by
  unfold sedLineKV
  rw [firstOcc_of_not_occurs key line h]

theorem sedLineKV_of_startsWith (key repl line : List Char)
    (h : startsWith key line = true) : sedLineKV key repl line = repl := by
  unfold sedLineKV
  cases line with
  | nil => rw [firstOcc, if_pos h]; rfl
  | cons c cs => rw [firstOcc, if_pos h]; rfl

/-- A pattern containing a non-digit character that is absent from `pre`
cannot occur in `pre` followed by a printed number. -/
theorem not_occurs_append_digits (p pre : List Char) (n : Nat) (c0 : Char)
    (hc0 : c0 ∈ p) (hpre : c0 ∉ pre) (hdig : c0.isDigit = false) :
    occurs p (pre ++ natDigits n) = false := by
  cases h : occurs p (pre ++ natDigits n) with
  | false => rfl
  | true =>
    exfalso
    rcases List.mem_append.mp (occurs_mem p _ h c0 hc0) with h1 | h1
    · exact hpre h1
    · rw [natDigits_isDigit n c0 h1] at hdig
      exact absurd hdig (by decide)

/-- Mapping a replacement over a list of clean contents changes nothing. -/
theorem map_replaceAll_of_clean (p r : List Char) (l : List (List Char))
    (h : ∀ a ∈ l, occurs p a = false) : l.map (replaceAll p r) = l := by
  induction l with
  | nil => rfl
  | cons a as ih =>
    simp only [List.map_cons]
    rw [replaceAll_of_not_occurs p r a (h a (List.mem_cons_self a as)),
      ih (fun b hb => h b (List.mem_cons_of_mem a hb))]

/-- Mapping a replacement over a clean optional content changes nothing. -/
theorem optMap_replaceAll_of_clean (p r : List Char) (o : Option (List Char))
    (h : optClean p o = true) : o.map (replaceAll p r) = o := by
  cases o with
  | none => rfl
  | some c =>
    have hc : occurs p c = false := by
      simpa [optClean, Bool.not_eq_true'] using h
    simp [replaceAll_of_not_occurs p r c hc]

/-- C1 (amended): Identity Substitution is idempotent on every input on
which its first application leaves no occurrence of any rule pattern in
the target files: there, applying the rule set twice yields byte-identical
file contents to applying it once.  (In general the claim fails: a slug or
display name that reintroduces a pattern, e.g. the valid kebab-case slug
my-project-app, is substituted again by the second run.) -/
theorem substitution_idempotent_of_clean (slug dispName : List Char)
    (fs : FS) (h : substClean (applySubst slug dispName fs) = true) :
    applySubst slug dispName (applySubst slug dispName fs) =
      applySubst slug dispName fs := by
  simp only [substClean, Bool.and_eq_true] at h
  obtain ⟨⟨⟨⟨⟨⟨h1, h2⟩, h3⟩, h4⟩, h5⟩, h6⟩, h7⟩ := h
  simp only [applySubst] at h1 h2 h3 h4 h5 h6 h7 ⊢
  rw [FS.mk.injEq]
  refine ⟨?_, ?_, ?_, rfl, rfl, ?_, ?_, ?_, ?_, rfl, rfl⟩
  · apply map_replaceAll_of_clean
    intro a ha
    simpa [Bool.not_eq_true'] using List.all_eq_true.mp h1 a ha
  · apply map_replaceAll_of_clean
    intro a ha
    simpa [Bool.not_eq_true'] using List.all_eq_true.mp h2 a ha
  · exact optMap_replaceAll_of_clean _ _ _ h3
  · exact optMap_replaceAll_of_clean _ _ _ h4
  · exact optMap_replaceAll_of_clean _ _ _ h5
  · exact optMap_replaceAll_of_clean _ _ _ h6
  · exact optMap_replaceAll_of_clean _ _ _ h7

/-- C1 (counterexample): with the valid kebab-case slug my-project-app and
the template's own zap.yaml content, the second application of the
substitution rule set is not a no-op — zap.yaml becomes
name: my-project-app-app instead of name: my-project-app. -/
theorem substitution_not_idempotent :
    applySubst badSlug acmeName (applySubst badSlug acmeName fsZapOnly) ≠
      applySubst badSlug acmeName fsZapOnly := by
  decide

/-- C1 (witness): on the spec's own example identity and a template-like
working copy, the first application is clean and the substitution is
idempotent. -/
theorem substitution_idempotent_witness :
    substClean (applySubst acmeSlug acmeName fsTemplate) = true ∧
    applySubst acmeSlug acmeName (applySubst acmeSlug acmeName fsTemplate) =
      applySubst acmeSlug acmeName fsTemplate :=
  ⟨by decide, substitution_idempotent_of_clean acmeSlug acmeName fsTemplate
    (by decide)⟩

/-- C3 (counterexample): an invocation of the transform stage in which the
two RANDOM draws are 3 and 8979 generates BACKEND_PORT = FRONTEND_PORT =
1027: the two generated values are not distinct, even though the two draws
differ. -/
theorem transform_ports_can_collide :
    (runTransform argsAcme fsTemplate 3 8979 []).ports = some (1027, 1027) ∧
    (3 : Nat) ≠ 8979 := by
  constructor
  · decide
  · decide

/-- C3 (amended): the two generated ports of one transform invocation need
not be distinct — the generator gives no distinctness guarantee: the two
values coincide exactly when the two underlying RANDOM draws are congruent
modulo 8976. -/
theorem ports_equal_iff_draws_congruent (r1 r2 : Nat) :
    randomport r1 = randomport r2 ↔
      (r1 % 32768) % 8976 = (r2 % 32768) % 8976 := by
  unfold randomport
  omega

/-- C5 (counterexample): with `zap.yaml` absent from the working copy, the
transform run aborts with the `sed` failure under `set -e` — a nonzero
exit, not a warning followed by a successful run. -/
theorem missing_target_aborts :
    (runTransform argsAcme fsNoZap 0 0 []).result = TExit.sedErr := by
  decide

/-- A list of length four is a four-element list. -/
theorem args_four (args : List (List Char)) (hlen : args.length = 4) :
    ∃ a1 a2 a3 a4, args = [a1, a2, a3, a4] := by
  rcases args with _ | ⟨a1, _ | ⟨a2, _ | ⟨a3, _ | ⟨a4, _ | ⟨a5, rest⟩⟩⟩⟩⟩ <;>
    simp only [List.length] at hlen <;>
    first
      | exact ⟨a1, a2, a3, a4, rfl⟩
      | omega

/-- C5 (amended): a substitution target file that does not exist is fatal,
whichever of the six `sed` targets it is: whenever any of `zap.yaml`,
`index.html`, `core/src/index.ts`, `App.test.tsx`, the Dockerfile or
`.env.local` is absent, `set -e` aborts the transform with a nonzero exit
at the first failing `sed`.  Only the workspace-file rename source
(failure suppressed by `|| true`) and the optional favicon generator
(guarded by `[ -f ]`, warned and skipped) are tolerated as missing: with
all `sed` targets present the run exits successfully whatever their
state. -/
theorem missing_target_fatal_only_sed (args : List (List Char)) (fs : FS)
    (r1 r2 : Nat) (fav : List Char) :
    (args.length = 4 → sedTargetsPresent fs = true →
      (runTransform args fs r1 r2 fav).result = TExit.success) ∧
    (args.length = 4 → sedTargetsPresent fs = false →
      (runTransform args fs r1 r2 fav).result = TExit.sedErr) := by
  obtain ⟨pj, ts, zy, ws, wd, ihh, ci, ta, df, env, fav0⟩ := fs
  constructor
  · intro hlen hsed
    obtain ⟨a1, a2, a3, a4, rfl⟩ := args_four args hlen
    simp only [sedTargetsPresent, Bool.and_eq_true, Option.isSome_iff_exists]
      at hsed
    obtain ⟨⟨⟨⟨⟨⟨zv, hz⟩, ⟨iv, hi⟩⟩, ⟨cv, hc⟩⟩, ⟨av, ha⟩⟩, ⟨dv, hd⟩⟩, ⟨ev, he⟩⟩ :=
      hsed
    subst hz hi hc ha hd he
    cases ws <;> simp [runTransform]
  · intro hlen hsed
    obtain ⟨a1, a2, a3, a4, rfl⟩ := args_four args hlen
    cases zy <;> cases ihh <;> cases ci <;> cases ta <;> cases df <;>
      cases env <;> cases ws <;> simp_all [runTransform, sedTargetsPresent]

/-- C5 (amended, witness): on the template fixture every target is present
and the run succeeds; deleting `zap.yaml` (the first target) or
`.env.local` (the last) makes the same run abort at the `sed`. -/
theorem missing_target_fatal_witness :
    (runTransform argsAcme fsTemplate 0 0 []).result = TExit.success ∧
    (runTransform argsAcme fsNoZap 0 0 []).result = TExit.sedErr ∧
    (runTransform argsAcme fsNoEnv 0 0 []).result = TExit.sedErr :=
  ⟨(missing_target_fatal_only_sed argsAcme fsTemplate 0 0 []).1 (by decide)
      (by decide),
    (missing_target_fatal_only_sed argsAcme fsNoZap 0 0 []).2 (by decide)
      (by decide),
    (missing_target_fatal_only_sed argsAcme fsNoEnv 0 0 []).2 (by decide)
      (by decide)⟩

/-- C6: when the rename was already applied — the source
`my-project.code-workspace` is gone and the destination name already
exists — the rename step (`mv ... 2>/dev/null || true`) is a no-op and not
an error: the destination file and the absent source are left as they are
and the transform run continues to successful completion. -/
theorem rename_already_applied_noop (args : List (List Char)) (fs : FS)
    (r1 r2 : Nat) (fav : List Char) (hlen : args.length = 4)
    (hsed : sedTargetsPresent fs = true) (hsrc : fs.wsSrc = none)
    (_hdest : fs.wsDest.isSome = true) :
    (runTransform args fs r1 r2 fav).result = TExit.success ∧
    (runTransform args fs r1 r2 fav).fs.wsDest = fs.wsDest ∧
    (runTransform args fs r1 r2 fav).fs.wsSrc = none := by
  obtain ⟨pj, ts, zy, ws, wd, ihh, ci, ta, df, env, fav0⟩ := fs
  obtain ⟨a1, a2, a3, a4, rfl⟩ := args_four args hlen
  simp only [sedTargetsPresent, Bool.and_eq_true, Option.isSome_iff_exists]
    at hsed
  obtain ⟨⟨⟨⟨⟨⟨zv, hz⟩, ⟨iv, hi⟩⟩, ⟨cv, hc⟩⟩, ⟨av, ha⟩⟩, ⟨dv, hd⟩⟩, ⟨ev, he⟩⟩ :=
    hsed
  subst hz hi hc ha hd he
  simp only at hsrc
  subst hsrc
  simp [runTransform, apply_ite FS.wsDest, apply_ite FS.wsSrc]

/-- C6 (witness): on the template fixture with the rename already applied,
the run succeeds and leaves both workspace-file names untouched. -/
theorem rename_already_applied_noop_witness :
    (runTransform argsAcme fsRenamed 0 0 []).result = TExit.success ∧
    (runTransform argsAcme fsRenamed 0 0 []).fs.wsDest = fsRenamed.wsDest ∧
    (runTransform argsAcme fsRenamed 0 0 []).fs.wsSrc = none :=
  rename_already_applied_noop argsAcme fsRenamed 0 0 [] (by decide)
    (by decide) (by decide) (by decide)

/-- C8: the transform CLI requires exactly four positional arguments: on
any other arity it prints the usage message and exits 1 with the working
copy untouched, and a run that exits successfully has printed exactly the
two generated ports (backend first). -/
theorem transform_cli_contract (args : List (List Char)) (fs : FS)
    (r1 r2 : Nat) (fav : List Char) :
    (args.length ≠ 4 →
      runTransform args fs r1 r2 fav = ⟨TExit.usageErr, fs, none⟩) ∧
    ((runTransform args fs r1 r2 fav).result = TExit.success →
      (runTransform args fs r1 r2 fav).ports =
        some (randomport r1, randomport r2)) := by
  constructor
  · intro hlen
    rcases args with _ | ⟨a1, _ | ⟨a2, _ | ⟨a3, _ | ⟨a4, _ | ⟨a5, rest⟩⟩⟩⟩⟩ <;>
      first
        | rfl
        | (exfalso; exact hlen (by simp))
  · intro hs
    rcases args with _ | ⟨a1, _ | ⟨a2, _ | ⟨a3, _ | ⟨a4, _ | ⟨a5, rest⟩⟩⟩⟩⟩ <;>
      try simp [runTransform] at hs
    obtain ⟨pj, ts, zy, ws, wd, ihh, ci, ta, df, env, fav0⟩ := fs
    cases zy <;> cases ihh <;> cases ci <;> cases ta <;> cases df <;>
      cases env <;> cases ws <;> simp_all [runTransform]

/-- C8 (witness): the empty argument list yields the usage exit with the
working copy untouched; the four-argument fixture run succeeds and prints
the two generated ports. -/
theorem transform_cli_contract_witness :
    runTransform [] fsTemplate 0 0 [] = ⟨TExit.usageErr, fsTemplate, none⟩ ∧
    (runTransform argsAcme fsTemplate 0 0 []).ports =
      some (randomport 0, randomport 0) :=
  ⟨(transform_cli_contract [] fsTemplate 0 0 []).1 (by decide),
    (transform_cli_contract argsAcme fsTemplate 0 0 []).2 (by decide)⟩

/-- C9: the port-assignment step is the line-wise composition of the three
`sed` passes; a line containing none of the three keys is preserved
unchanged; a line beginning with BACKEND_PORT=, FRONTEND_PORT= or
VITE_API_BASE_URL= is overwritten with the key followed by the new value,
whatever its prior value; and the derived base-URL value is
http://localhost: followed by the backend port. -/
theorem port_assignment_frame (bp fp : Nat) (lines : List (List Char))
    (line : List Char) :
    portSubst bp fp lines =
      lines.map (fun l => envLine3 bp (envLine2 fp (envLine1 bp l))) ∧
    (occurs keyB line = false → occurs keyF line = false →
      occurs keyV line = false →
      envLine3 bp (envLine2 fp (envLine1 bp line)) = line) ∧
    (startsWith keyB line = true →
      envLine3 bp (envLine2 fp (envLine1 bp line)) = keyB ++ natDigits bp) ∧
    (startsWith keyF line = true → occurs keyB line = false →
      envLine3 bp (envLine2 fp (envLine1 bp line)) = keyF ++ natDigits fp) ∧
    (startsWith keyV line = true → occurs keyB line = false →
      occurs keyF line = false →
      envLine3 bp (envLine2 fp (envLine1 bp line)) = keyV ++ urlOf bp) ∧
    urlOf bp = "http://localhost:".toList ++ natDigits bp := by
  refine ⟨?_, ?_, ?_, ?_, ?_, rfl⟩
  · rw [portSubst, List.map_map, List.map_map]
    rfl
  · intro hB hF hV
    rw [envLine1, sedLineKV_of_not_occurs _ _ _ hB,
      envLine2, sedLineKV_of_not_occurs _ _ _ hF,
      envLine3, sedLineKV_of_not_occurs _ _ _ hV]
  · intro hB
    rw [envLine1, sedLineKV_of_startsWith _ _ _ hB,
      envLine2, sedLineKV_of_not_occurs _ _ _
        (not_occurs_append_digits keyF keyB bp 'F' (by decide) (by decide)
          (by decide)),
      envLine3, sedLineKV_of_not_occurs _ _ _
        (not_occurs_append_digits keyV keyB bp 'V' (by decide) (by decide)
          (by decide))]
  · intro hF hB
    rw [envLine1, sedLineKV_of_not_occurs _ _ _ hB,
      envLine2, sedLineKV_of_startsWith _ _ _ hF,
      envLine3, sedLineKV_of_not_occurs _ _ _
        (not_occurs_append_digits keyV keyF fp 'V' (by decide) (by decide)
          (by decide))]
  · intro hV hB hF
    rw [envLine1, sedLineKV_of_not_occurs _ _ _ hB,
      envLine2, sedLineKV_of_not_occurs _ _ _ hF,
      envLine3, sedLineKV_of_startsWith _ _ _ hV]

/-- C9 (witness): on the fixture `.env.local`, the three key lines are
overwritten with the fresh values and the unrelated line survives
verbatim. -/
theorem port_assignment_frame_witness :
    portSubst 1234 5678 lines0 =
      lines0.map (fun l => envLine3 1234 (envLine2 5678 (envLine1 1234 l))) ∧
    envLine3 1234 (envLine2 5678 (envLine1 1234 lineOther)) = lineOther ∧
    envLine3 1234 (envLine2 5678 (envLine1 1234 lineB)) =
      keyB ++ natDigits 1234 ∧
    envLine3 1234 (envLine2 5678 (envLine1 1234 lineF)) =
      keyF ++ natDigits 5678 ∧
    envLine3 1234 (envLine2 5678 (envLine1 1234 lineV)) = keyV ++ urlOf 1234 :=
  ⟨(port_assignment_frame 1234 5678 lines0 lineOther).1,
    (port_assignment_frame 1234 5678 lines0 lineOther).2.1 (by decide)
      (by decide) (by decide),
    (port_assignment_frame 1234 5678 lines0 lineB).2.2.1 (by decide),
    (port_assignment_frame 1234 5678 lines0 lineF).2.2.2.1 (by decide)
      (by decide),
    (port_assignment_frame 1234 5678 lines0 lineV).2.2.2.2.1 (by decide)
      (by decide) (by decide)⟩

/-- C2: the verification pipeline reports Passed (exit 0) exactly when
DependenciesInstalled, TypeChecked, Built, ServicesUp and SmokeTested all
completed in that order; any stage failure makes the run exit nonzero; and
no services are left running at exit — any services brought up are torn
down before the nonzero exit, and stopped on the success path too. -/
theorem verification_pipeline_ordering (env : VerifyEnv) (g : Bool) :
    ((runVerification env g).exitZero = true ↔
      (runVerification env g).completed = fullStageOrder) ∧
    (allStagesOk env = false → (runVerification env g).exitZero = false) ∧
    (runVerification env g).servicesUp = false := by
  obtain ⟨i, t, b, u, s⟩ := env
  cases i <;> cases t <;> cases b <;> cases u <;> cases s <;> cases g <;>
    decide

/-- C2 (witness): a run whose smoke test fails exits nonzero with its
services stopped. -/
theorem verification_pipeline_ordering_witness :
    (runVerification envSmokeFail true).exitZero = false ∧
    (runVerification envSmokeFail true).servicesUp = false :=
  ⟨(verification_pipeline_ordering envSmokeFail true).2.1 (by decide),
    (verification_pipeline_ordering envSmokeFail true).2.2⟩

/-- C10: the setup guide is removed only on the success path: every run
that exits nonzero leaves `PROJECT_SETUP_GUIDE.md` exactly as it was; a
run in which every stage succeeds exits 0 with the guide absent — also
when the guide was already absent, in which case the `[ -f ]` guard skips
the `rm` without error; and whenever the guide actually changed, the run
was a full success with the services already stopped at exit. -/
theorem guide_removed_only_on_success (env : VerifyEnv) (g : Bool) :
    ((runVerification env g).exitZero = false →
      (runVerification env g).guide = g) ∧
    (allStagesOk env = true →
      (runVerification env g).exitZero = true ∧
      (runVerification env g).guide = false) ∧
    ((runVerification env g).guide ≠ g →
      allStagesOk env = true ∧ (runVerification env g).servicesUp = false) := by
  obtain ⟨i, t, b, u, s⟩ := env
  cases i <;> cases t <;> cases b <;> cases u <;> cases s <;> cases g <;>
    decide

/-- C10 (witness): a failed smoke test leaves the guide in place; the
all-success run exits 0 with the guide removed. -/
theorem guide_removed_only_on_success_witness :
    (runVerification envSmokeFail true).guide = true ∧
    (runVerification envAllOk true).exitZero = true ∧
    (runVerification envAllOk true).guide = false :=
  ⟨(guide_removed_only_on_success envSmokeFail true).1 (by decide),
    (guide_removed_only_on_success envAllOk true).2.1 (by decide)⟩

/-- C7: the prerequisite check exits 0 exactly when the runtime, the
package manager and the process-manager CLI are all present, and exits 1
otherwise; its summary lists exactly the absent tools as missing; and its
per-tool report carries, for every tool, the found version when present
and a missing marker when absent. -/
theorem prerequisite_check_contract (e : ToolEnv) :
    ((machineSetup e).exit = 0 ↔
      e.node.isSome = true ∧ e.pnpm.isSome = true ∧ e.zap.isSome = true) ∧
    ((machineSetup e).exit = 0 ∨ (machineSetup e).exit = 1) ∧
    (∀ nm, nm ∈ (machineSetup e).missing ↔
      (nm = nodeName ∧ e.node = none) ∨ (nm = pnpmName ∧ e.pnpm = none) ∨
      (nm = zapName ∧ e.zap = none)) ∧
    (machineSetup e).entries =
      [(nodeName, e.node), (pnpmName, e.pnpm), (zapName, e.zap)] := by
  obtain ⟨n, p, z⟩ := e
  refine ⟨?_, ?_, ?_, rfl⟩
  · cases n <;> cases p <;> cases z <;> simp [machineSetup]
  · cases n <;> cases p <;> cases z <;> simp [machineSetup]
  · intro nm
    cases n <;> cases p <;> cases z <;> simp [machineSetup]

end PnpmTemplate

